import Mathlib

/-!
Verification development for the automation-framework repository.

The definitions below are a shallow embedding of the Python sources:

* `automation_framework/platforms/web/selenium_helper.py` (class `SeleniumHelper`)
* `automation_framework/utils/exceptions.py`
* `automation_framework/utils/debug_helper.py` (class `DebugHelper`)
* `automation_framework/utils/screenshot_manager.py` (class `ScreenshotManager`)

Modelling conventions:

* Time is discrete: one tick per poll of a Selenium `WebDriverWait`.  The
  numeric timeout of a wait call is read as the number of polls the wait is
  allowed to perform (Selenium polls every 0.5 s until the deadline; the
  exact tick/second ratio is irrelevant to every claim below, which only
  distinguish "the condition becomes true within the effective timeout"
  from "it never does").
* The browser is an environment: a condition is a function from ticks to
  poll outcomes, the DOM seen by an injected script is an explicit value,
  the filesystem is a predicate saying which writes succeed.
* Python exceptions are the `PyError` sum type and fallible code returns
  `Except PyError`.  An uncaught exception is an `.error` result.
* Logging calls are side effects that do not influence any claimed value;
  they are dropped from the embedding except where a claim mentions them
  (`extract_links_with_js` records whether its non-list warning fired).
-/

/-- Python exceptions that the embedded code can raise or catch. -/
inductive PyError where
  /-- Pythons built-in ValueError, raised for invalid string arguments. -/
  | valueError (msg : String)
  /-- Pythons built-in TypeError, e.g. a call with a missing required positional argument. -/
  | typeError (msg : String)
  /-- selenium.common.exceptions.TimeoutException. -/
  | timeoutException (msg : String)
  /-- Pythons built-in FileNotFoundError carrying the offending path. -/
  | fileNotFound (path : String)
  /-- Pythons built-in UnicodeDecodeError carrying the offending path. -/
  | unicodeDecodeError (path : String)
  /-- Pythons OSError family for failed filesystem writes. -/
  | osError (msg : String)
  /-- ElementNotFoundError from automation_framework.utils.exceptions,
  carrying the element description, page, locator string and timeout
  exactly as stored by `ElementNotFoundError.__init__`. -/
  | elementNotFound (element page locator : String) (timeout : Option Nat)
  /-- ActionFailedError from automation_framework.utils.exceptions. -/
  | actionFailed (action_type element page reason : String)
  deriving Repr, DecidableEq

deriving instance DecidableEq for Except

/-- String containment test: Python `sub in s` and XPath `contains(s, sub)`
both hold exactly when `sub` occurs contiguously inside `s`. -/
def strContainsSub (s sub : String) : Bool := decide (sub.data <:+: s.data)

/-- Selenium element handles are opaque; the model names them by a number. -/
abbrev WebElement := Nat

/-- Embedding of `WebDriverWait(driver, t).until(cond)`: poll the condition
once per tick; the first tick (before `maxPolls`) whose poll yields a value
succeeds with that value, otherwise the wait raises `TimeoutException` with
the message built by the caller. -/
def webDriverWaitUntil {α : Type} (poll : Nat → Option α) (maxPolls : Nat)
    (msg : String) : Except PyError α :=
  match (List.range maxPolls).findSome? poll with
  | some a => .ok a
  | none => .error (.timeoutException msg)

/-- Embedding of `WebDriverWait(driver, t).until_not(cond)` for the
document-condition waits: succeeds at the first tick (before `maxPolls`)
where the condition does NOT hold (Selenium treats both a falsy value and
an ignored `NoSuchElementException` as success of `until_not`), otherwise
raises `TimeoutException`. -/
def webDriverWaitUntilNot (holds : Nat → Bool) (maxPolls : Nat)
    (msg : String) : Except PyError Unit :=
  if (List.range maxPolls).any (fun t => !(holds t)) then .ok ()
  else .error (.timeoutException msg)

/-- Number of polls `WebDriverWait.until` actually performs: it stops at the
first successful poll, and performs all `maxPolls` polls on a timeout. -/
def pollsUsed {α : Type} (poll : Nat → Option α) (maxPolls : Nat) : Nat :=
  match (List.range maxPolls).findIdx? (fun t => (poll t).isSome) with
  | some i => i + 1
  | none => maxPolls

/-- State of the WebDriver visible to the embedded helper: only the current
URL is ever read by the code under study. -/
structure Driver where
  currentUrl : String

/-- Embedding of the `SeleniumHelper` instance state set by `__init__`:
the stored default timeout (the driver and the prebuilt `self.wait` are
threaded separately per call). -/
structure SeleniumHelper where
  default_timeout : Nat

/-- Names of the three Selenium expected-condition factories that
`_get_expected_condition_func` can return. -/
inductive ECKind where
  | clickable
  | visible
  | present
  deriving Repr, DecidableEq

/-- Embedding of `SeleniumHelper._get_expected_condition_func`: a
three-entry map from condition names to expected-condition factories;
any other name raises `ValueError` (after logging) before any wait. -/
def _get_expected_condition_func (condition : String) : Except PyError ECKind :=
  if condition = "clickable" then .ok .clickable
  else if condition = "visible" then .ok .visible
  else if condition = "present" then .ok .present
  else .error (.valueError ("Unsupported condition: " ++ condition ++
    ". Use one of: [clickable, visible, present]"))

/-- Kinds of Python method declarations relevant here: whether the
function is decorated with `@staticmethod`. -/
inductive MethodKind where
  | instanceMethod
  | staticMethod
  deriving Repr, DecidableEq

/-- Number of arguments Python actually binds for a call
`instance.method(explicitArgs...)`: an instance method receives the
instance as an implicit first argument, a `@staticmethod` does not. -/
def boundArgCount (kind : MethodKind) (explicitArgs : Nat) : Nat :=
  match kind with
  | .instanceMethod => explicitArgs + 1
  | .staticMethod => explicitArgs

/-- Declaration shape of `SeleniumHelper._get_current_url_or_default` as it
stands in the source: it is decorated `@staticmethod` yet its parameter
list is `(self, default="Unknown")`, so exactly one parameter (`self`) has
no default value. -/
def getCurrentUrlDeclKind : MethodKind := .staticMethod

/-- Count of parameters of `_get_current_url_or_default` without a default
value (`self` alone; `default` defaults to the string Unknown). -/
def getCurrentUrlRequiredPositionals : Nat := 1

/-- Body of `_get_current_url_or_default`: returns the drivers current URL
(falling back to the default when the attribute is missing or raises; the
model driver always exposes a URL). -/
def getCurrentUrlBody (driver : Driver) (defaultVal : String) : String :=
  let _ := defaultVal
  driver.currentUrl

/-- Message of the TypeError raised by an instance call of the
misdeclared static URL helper. -/
def urlHelperTypeErrorMsg : String :=
  "_get_current_url_or_default() missing 1 required positional argument: self"

/-- Embedding of the call `self._get_current_url_or_default()` as it
appears at every call site inside `SeleniumHelper`: zero explicit
arguments are passed, and because the function is a `@staticmethod` the
instance is not bound, so fewer arguments arrive than the one required
positional parameter (`self`) and Python raises `TypeError` before the
body runs. -/
def callGetCurrentUrlViaInstance (driver : Driver) : Except PyError String :=
  if boundArgCount getCurrentUrlDeclKind 0 < getCurrentUrlRequiredPositionals then
    .error (.typeError urlHelperTypeErrorMsg)
  else
    .ok (getCurrentUrlBody driver "Unknown")

/-- Embedding of `SeleniumHelper.wait_for_element_present`: resolve the
effective timeout, wait for presence, return `true` on success and catch
`TimeoutException` into a logged warning and `false`. -/
def wait_for_element_present (h : SeleniumHelper) (presentAt : Nat → Bool)
    (xpath : String) (timeout : Option Nat) : Except PyError Bool :=
  let effective_timeout := timeout.getD h.default_timeout
  match webDriverWaitUntil (fun t => if presentAt t then some () else none)
      effective_timeout xpath with
  | .ok _ => .ok true
  | .error (.timeoutException _) => .ok false
  | .error e => .error e

/-- Embedding of `SeleniumHelper.wait_for_element_visible`: same shape as
the presence wait, against the visibility condition. -/
def wait_for_element_visible (h : SeleniumHelper) (visibleAt : Nat → Bool)
    (xpath : String) (timeout : Option Nat) : Except PyError Bool :=
  let effective_timeout := timeout.getD h.default_timeout
  match webDriverWaitUntil (fun t => if visibleAt t then some () else none)
      effective_timeout xpath with
  | .ok _ => .ok true
  | .error (.timeoutException _) => .ok false
  | .error e => .error e

/-- Embedding of `SeleniumHelper.wait_for_text_present_in_element`:
`EC.text_to_be_present_in_element` holds at a tick when the element exists
there and its text contains the expected text (an absent element raises
`NoSuchElementException`, which the wait ignores and keeps polling). -/
def wait_for_text_present_in_element (h : SeleniumHelper)
    (elementTextAt : Nat → Option String) (xpath : String) (text : String)
    (timeout : Option Nat) : Except PyError Bool :=
  let effective_timeout := timeout.getD h.default_timeout
  let cond : Nat → Option Unit := fun t =>
    match elementTextAt t with
    | some s => if strContainsSub s text then some () else none
    | none => none
  match webDriverWaitUntil cond effective_timeout xpath with
  | .ok _ => .ok true
  | .error (.timeoutException _) => .ok false
  | .error e => .error e

/-- Embedding of `SeleniumHelper.wait_for_url_contains`: `EC.url_contains`
holds at a tick when the browser URL at that tick contains the substring. -/
def wait_for_url_contains (h : SeleniumHelper) (urlAt : Nat → String)
    (substring : String) (timeout : Option Nat) : Except PyError Bool :=
  let effective_timeout := timeout.getD h.default_timeout
  let cond : Nat → Option Unit := fun t =>
    if strContainsSub (urlAt t) substring then some () else none
  match webDriverWaitUntil cond effective_timeout substring with
  | .ok _ => .ok true
  | .error (.timeoutException _) => .ok false
  | .error e => .error e

/-- Embedding of `SeleniumHelper.wait_for_element_not_present`:
`until_not` over the presence condition. -/
def wait_for_element_not_present (h : SeleniumHelper) (presentAt : Nat → Bool)
    (xpath : String) (timeout : Option Nat) : Except PyError Bool :=
  let effective_timeout := timeout.getD h.default_timeout
  match webDriverWaitUntilNot presentAt effective_timeout xpath with
  | .ok _ => .ok true
  | .error (.timeoutException _) => .ok false
  | .error e => .error e

/-- Embedding of `SeleniumHelper.wait_for_element_not_visible`:
`until_not` over the visibility condition. -/
def wait_for_element_not_visible (h : SeleniumHelper) (visibleAt : Nat → Bool)
    (xpath : String) (timeout : Option Nat) : Except PyError Bool :=
  let effective_timeout := timeout.getD h.default_timeout
  match webDriverWaitUntilNot visibleAt effective_timeout xpath with
  | .ok _ => .ok true
  | .error (.timeoutException _) => .ok false
  | .error e => .error e

/-- Embedding of `SeleniumHelper.wait_for_element_clickable`: on success
log and return the element; on timeout log an error and re-raise a fresh
`TimeoutException` (its docstring and the unit test
`test_wait_for_element_clickable_timeout` both specify `TimeoutException`,
not `ElementNotFoundError`). -/
def wait_for_element_clickable (h : SeleniumHelper)
    (clickableAt : Nat → Option WebElement) (xpath : String)
    (timeout : Option Nat) : Except PyError WebElement :=
  let effective_timeout := timeout.getD h.default_timeout
  match webDriverWaitUntil clickableAt effective_timeout xpath with
  | .ok element => .ok element
  | .error (.timeoutException _) =>
      .error (.timeoutException
        ("Timed out waiting for element to be clickable: " ++ xpath))
  | .error e => .error e

/-- Locator strategies used by the locate-by-purpose methods. -/
inductive ByStrategy where
  | cssSelector
  | xpathSel
  deriving Repr, DecidableEq

/-- Locator: a (strategy, value) pair, exactly the tuples the source builds. -/
structure Locator where
  strategy : ByStrategy
  value : String
  deriving Repr, DecidableEq

/-- Stringification of a locator as used for the `locator` field of
`ElementNotFoundError` (`str(locator)` on the Python tuple). -/
def locatorStr (l : Locator) : String :=
  let strategyName := match l.strategy with
    | .cssSelector => "css selector"
    | .xpathSel => "xpath"
  "(" ++ strategyName ++ ", " ++ l.value ++ ")"

/-- Single-quote character, used inside generated CSS/XPath strings. -/
def sglQuote : String := String.singleton (Char.ofNat 39)

/-- CSS selector built by `find_by_data_test_id`. -/
def dataTestIdSelector (test_id : String) : String :=
  "[data-testid=" ++ sglQuote ++ test_id ++ sglQuote ++ "]"

/-- XPath built by `find_by_aria_label`. -/
def ariaLabelXPath (aria_label : String) : String :=
  "//*[@aria-label=" ++ sglQuote ++ aria_label ++ sglQuote ++ "]"

/-- XPath expression built by `find_by_visible_text`: with `exact_match`
it compares the direct text nodes with `text()=...`, otherwise it uses
`contains(., ...)` over the whole element content. -/
def visibleTextXPath (tag text : String) (exact_match : Bool) : String :=
  if exact_match then
    "//" ++ tag ++ "[text()=" ++ sglQuote ++ text ++ sglQuote ++ "]"
  else
    "//" ++ tag ++ "[contains(., " ++ sglQuote ++ text ++ sglQuote ++ ")]"

/-- CSS selector built by `find_by_partial_attribute`
(`tag[attribute*=value_part]`). -/
def partialAttributeSelector (attribute_name attribute_value_part tag : String) : String :=
  tag ++ "[" ++ attribute_name ++ "*=" ++ sglQuote ++ attribute_value_part ++ sglQuote ++ "]"

/-- Shared body of the four locate-by-purpose methods
(`find_by_data_test_id`, `find_by_aria_label`, `find_by_visible_text`,
`find_by_partial_attribute`): resolve the effective wait time, resolve the
condition name, wait for the condition; on success read the current URL for
the info log and return the element; on timeout log, run
`automation_logger.capture_debug_info` (modelled as succeeding) and read
the current URL for the `ElementNotFoundError` about to be raised.  Both
URL reads go through `callGetCurrentUrlViaInstance`, the faithful model of
the call `self._get_current_url_or_default()`. -/
def locateByPurpose (h : SeleniumHelper) (driver : Driver)
    (condPoll : ECKind → Nat → Option WebElement)
    (locator : Locator) (elementDesc : String) (conditionName : String)
    (wait_time : Option Nat) : Except PyError WebElement :=
  let effective_wait_time := wait_time.getD h.default_timeout
  match _get_expected_condition_func conditionName with
  | .error e => .error e
  | .ok kind =>
    match webDriverWaitUntil (condPoll kind) effective_wait_time locator.value with
    | .ok element =>
        match callGetCurrentUrlViaInstance driver with
        | .ok _ => .ok element
        | .error e => .error e
    | .error (.timeoutException _) =>
        match callGetCurrentUrlViaInstance driver with
        | .ok url =>
            .error (.elementNotFound elementDesc url (locatorStr locator)
              (some effective_wait_time))
        | .error e => .error e
    | .error e => .error e

/-- Embedding of `SeleniumHelper.find_by_data_test_id`. -/
def find_by_data_test_id (h : SeleniumHelper) (driver : Driver)
    (condPoll : ECKind → Nat → Option WebElement) (test_id : String)
    (wait_time : Option Nat) (condition : String) : Except PyError WebElement :=
  locateByPurpose h driver condPoll
    { strategy := .cssSelector, value := dataTestIdSelector test_id }
    test_id condition wait_time

/-- Embedding of `SeleniumHelper.find_by_aria_label`. -/
def find_by_aria_label (h : SeleniumHelper) (driver : Driver)
    (condPoll : ECKind → Nat → Option WebElement) (aria_label : String)
    (wait_time : Option Nat) (condition : String) : Except PyError WebElement :=
  locateByPurpose h driver condPoll
    { strategy := .xpathSel, value := ariaLabelXPath aria_label }
    aria_label condition wait_time

/-- Embedding of `SeleniumHelper.find_by_visible_text`. -/
def find_by_visible_text (h : SeleniumHelper) (driver : Driver)
    (condPoll : ECKind → Nat → Option WebElement) (text : String) (tag : String)
    (wait_time : Option Nat) (condition : String) (exact_match : Bool) :
    Except PyError WebElement :=
  locateByPurpose h driver condPoll
    { strategy := .xpathSel, value := visibleTextXPath tag text exact_match }
    ("Text: " ++ text) condition wait_time

/-- Embedding of `SeleniumHelper.find_by_partial_attribute`. -/
def find_by_partial_attribute (h : SeleniumHelper) (driver : Driver)
    (condPoll : ECKind → Nat → Option WebElement)
    (attribute_name attribute_value_part tag : String)
    (wait_time : Option Nat) (condition : String) : Except PyError WebElement :=
  locateByPurpose h driver condPoll
    { strategy := .cssSelector,
      value := partialAttributeSelector attribute_name attribute_value_part tag }
    ("Attr: " ++ attribute_name ++ ", Part: " ++ attribute_value_part)
    condition wait_time

/-- Embedding of `SeleniumHelper.click_element`: resolve the condition name
(raising `ValueError` for an unknown name before any poll), wait, then
click.  The second component counts the polls the call performed against
the document.  The click-failure and timeout handlers both read the
current URL through the misdeclared static helper. -/
def click_element (h : SeleniumHelper) (driver : Driver)
    (condPoll : ECKind → Nat → Option WebElement) (clickOk : WebElement → Bool)
    (locator : Locator) (wait_time : Option Nat) (condition : String) :
    Except PyError Unit × Nat :=
  let effective_wait_time := wait_time.getD h.default_timeout
  match _get_expected_condition_func condition with
  | .error e => (.error e, 0)
  | .ok kind =>
    let polls := pollsUsed (condPoll kind) effective_wait_time
    match webDriverWaitUntil (condPoll kind) effective_wait_time locator.value with
    | .ok element =>
        if clickOk element then (.ok (), polls)
        else
          match callGetCurrentUrlViaInstance driver with
          | .ok url =>
              (.error (.actionFailed ("click_element") (locatorStr locator) url
                ("click raised")), polls)
          | .error e => (.error e, polls)
    | .error (.timeoutException _) =>
        match callGetCurrentUrlViaInstance driver with
        | .ok url =>
            (.error (.elementNotFound ("Element to click: " ++ locatorStr locator)
              url (locatorStr locator) (some effective_wait_time)), polls)
        | .error e => (.error e, polls)
    | .error e => (.error e, polls)

/-- Outcome of reading a file with `open(file_path, r, encoding=utf-8)`. -/
inductive FileReadResult where
  | missing
  | undecodable
  | content (text : String)
  deriving Repr, DecidableEq

/-- Embedding of `SeleniumHelper.insert_text_from_file`: read the file
first (a missing file logs and re-raises `FileNotFoundError`, an
undecodable file logs and re-raises `UnicodeDecodeError`); only then
resolve the effective wait time and the condition name, wait for the
target element, and clear/send the text.  The second component counts the
polls performed against the document; both error handlers after the wait
read the current URL through the misdeclared static helper. -/
def insert_text_from_file (h : SeleniumHelper) (driver : Driver)
    (fs : String → FileReadResult)
    (condPoll : ECKind → Nat → Option WebElement) (sendKeysOk : WebElement → Bool)
    (file_path : String) (locator : Locator) (clear_before_insert : Bool)
    (wait_time : Option Nat) (condition : String) : Except PyError Unit × Nat :=
  match fs file_path with
  | .missing => (.error (.fileNotFound file_path), 0)
  | .undecodable => (.error (.unicodeDecodeError file_path), 0)
  | .content _ =>
    let effective_wait_time := wait_time.getD h.default_timeout
    match _get_expected_condition_func condition with
    | .error e => (.error e, 0)
    | .ok kind =>
      let polls := pollsUsed (condPoll kind) effective_wait_time
      match webDriverWaitUntil (condPoll kind) effective_wait_time locator.value with
      | .ok element =>
          if sendKeysOk element then
            let _ := clear_before_insert
            (.ok (), polls)
          else
            match callGetCurrentUrlViaInstance driver with
            | .ok url =>
                (.error (.actionFailed ("insert_text_from_file") (locatorStr locator)
                  url ("clear or send_keys raised")), polls)
            | .error e => (.error e, polls)
      | .error (.timeoutException _) =>
          match callGetCurrentUrlViaInstance driver with
          | .ok url =>
              (.error (.elementNotFound ("Target for file " ++ file_path) url
                (locatorStr locator) (some effective_wait_time)), polls)
          | .error e => (.error e, polls)
      | .error e => (.error e, polls)

/-- Embedding of `SeleniumHelper.type_text`: resolve the effective wait
time and the condition name (an unknown name raises `ValueError` before
any poll), wait for the input element, then clear it and send the text.
The second component counts the polls performed against the document; the
typing-failure and timeout handlers both read the current URL through the
misdeclared static helper. -/
def type_text (h : SeleniumHelper) (driver : Driver)
    (condPoll : ECKind → Nat → Option WebElement) (sendKeysOk : WebElement → Bool)
    (locator : Locator) (text : String) (clear_before : Bool)
    (wait_time : Option Nat) (condition : String) : Except PyError Unit × Nat :=
  let effective_wait_time := wait_time.getD h.default_timeout
  match _get_expected_condition_func condition with
  | .error e => (.error e, 0)
  | .ok kind =>
    let polls := pollsUsed (condPoll kind) effective_wait_time
    match webDriverWaitUntil (condPoll kind) effective_wait_time locator.value with
    | .ok element =>
        if sendKeysOk element then
          let _ := clear_before
          let _ := text
          (.ok (), polls)
        else
          match callGetCurrentUrlViaInstance driver with
          | .ok url =>
              (.error (.actionFailed ("type_text") (locatorStr locator) url
                ("clear or send_keys raised")), polls)
          | .error e => (.error e, polls)
    | .error (.timeoutException _) =>
        match callGetCurrentUrlViaInstance driver with
        | .ok url =>
            (.error (.elementNotFound ("Input element for typing: " ++ locatorStr locator)
              url (locatorStr locator) (some effective_wait_time)), polls)
        | .error e => (.error e, polls)
    | .error e => (.error e, polls)

/-- Embedding of `SeleniumHelper.scroll_to_element`: first validate the
scroll animation and alignment names (each unknown value raises
`ValueError` at once), then resolve the effective wait time and the
condition name (an unknown condition name also raises `ValueError` before
any poll), wait for the element, then run the `scrollIntoView` script.
The second component counts the polls performed against the document; the
script-failure and timeout handlers both read the current URL through the
misdeclared static helper. -/
def scroll_to_element (h : SeleniumHelper) (driver : Driver)
    (condPoll : ECKind → Nat → Option WebElement) (scrollOk : WebElement → Bool)
    (locator : Locator) (wait_time : Option Nat)
    (condition scroll_behavior scroll_block : String) : Except PyError Unit × Nat :=
  if ¬(scroll_behavior = "auto" ∨ scroll_behavior = "smooth") then
    (.error (.valueError ("Unsupported scroll_behavior: " ++ scroll_behavior ++
      ". Use one of: [auto, smooth]")), 0)
  else if ¬(scroll_block = "start" ∨ scroll_block = "center" ∨
      scroll_block = "end" ∨ scroll_block = "nearest") then
    (.error (.valueError ("Unsupported scroll_block: " ++ scroll_block ++
      ". Use one of: [start, center, end, nearest]")), 0)
  else
    let effective_wait_time := wait_time.getD h.default_timeout
    match _get_expected_condition_func condition with
    | .error e => (.error e, 0)
    | .ok kind =>
      let polls := pollsUsed (condPoll kind) effective_wait_time
      match webDriverWaitUntil (condPoll kind) effective_wait_time locator.value with
      | .ok element =>
          if scrollOk element then (.ok (), polls)
          else
            match callGetCurrentUrlViaInstance driver with
            | .ok url =>
                (.error (.actionFailed ("scroll_to_element") (locatorStr locator)
                  url ("scrollIntoView raised")), polls)
            | .error e => (.error e, polls)
      | .error (.timeoutException _) =>
          match callGetCurrentUrlViaInstance driver with
          | .ok url =>
              (.error (.elementNotFound ("Target for scrolling: " ++ locatorStr locator)
                url (locatorStr locator) (some effective_wait_time)), polls)
          | .error e => (.error e, polls)
      | .error e => (.error e, polls)

/-- Container as seen by the injected extraction script: the `href`
property values (in document order) of the elements matching the link
selector inside that container.  An element without a usable `href`
property carries the empty string (falsy in JavaScript). -/
structure JSContainer where
  links : List String
  deriving Repr, DecidableEq

/-- Semantics of the single-index extraction script of
`extract_links_with_js`: for each container, if it has more matching links
than `targetIndex`, push the `href` at `targetIndex` when it is truthy;
containers with fewer links, and falsy hrefs, contribute nothing. -/
def jsExtractAt (containers : List JSContainer) (targetIndex : Nat) : List String :=
  containers.flatMap (fun c =>
    match c.links.get? targetIndex with
    | some href => if href ≠ "" then [href] else []
    | none => [])

/-- Semantics of the all-links extraction script of
`extract_links_with_js`: every truthy `href` of every container, container
by container in document order. -/
def jsExtractAll (containers : List JSContainer) : List String :=
  containers.flatMap (fun c => c.links.filter (fun href => href ≠ ""))

/-- Which of the two scripts `extract_links_with_js` submits to
`driver.execute_script`. -/
inductive ScriptChoice where
  | singleIndex (targetIndex : Int)
  | allLinks
  deriving Repr, DecidableEq

/-- Value produced by `driver.execute_script`, as far as the Python side
inspects it: either a list of strings or something that fails the
`isinstance(extracted_links, list)` check. -/
inductive JSValue where
  | list (hrefs : List String)
  | nonList
  deriving Repr, DecidableEq

/-- Behaviour of a browser that faithfully executes the two extraction
scripts against a document whose matching containers are `containers`. -/
def runExtractionScript (containers : List JSContainer) :
    ScriptChoice → Except Unit JSValue
  | .singleIndex i => .ok (.list (jsExtractAt containers i.toNat))
  | .allLinks => .ok (.list (jsExtractAll containers))

/-- Observable outcome of one `extract_links_with_js` call: the returned
value or uncaught exception, the number of polls performed against the
document, and whether the non-list warning was logged. -/
structure ExtractOutcome where
  result : Except PyError (List String)
  pollsPerformed : Nat
  nonListWarningLogged : Bool
  deriving Repr, DecidableEq

/-- Embedding of `SeleniumHelper.extract_links_with_js`: a negative
`single_link_index` raises `ValueError` at once (no wait, no document
access); then the call waits for a container, chooses the script matching
`single_link_index`, executes it, treats a non-list result as an empty
list with a logged warning, treats a raising execution as an empty list,
and otherwise returns the extracted list.  The container-timeout handler
reads the current URL through the misdeclared static helper. -/
def extract_links_with_js (h : SeleniumHelper) (driver : Driver)
    (containerPresentAt : Nat → Bool)
    (execResult : ScriptChoice → Except Unit JSValue)
    (container_locator : Locator) (link_selector : String)
    (wait_time : Option Nat) (single_link_index : Option Int) : ExtractOutcome :=
  let _ := link_selector
  if (match single_link_index with
      | some i => decide (i < 0)
      | none => false) then
    { result := .error (.valueError
        "single_link_index must be a non-negative integer or None."),
      pollsPerformed := 0, nonListWarningLogged := false }
  else
    let effective_wait_time := wait_time.getD h.default_timeout
    let presentPoll : Nat → Option Unit := fun t =>
      if containerPresentAt t then some () else none
    let polls := pollsUsed presentPoll effective_wait_time
    match webDriverWaitUntil presentPoll effective_wait_time container_locator.value with
    | .error (.timeoutException _) =>
        (match callGetCurrentUrlViaInstance driver with
         | .ok url =>
             { result := .error (.elementNotFound
                 ("Container for link extraction: " ++ locatorStr container_locator)
                 url (locatorStr container_locator) (some effective_wait_time)),
               pollsPerformed := polls, nonListWarningLogged := false }
         | .error e =>
             { result := .error e, pollsPerformed := polls,
               nonListWarningLogged := false })
    | .error e =>
        { result := .error e, pollsPerformed := polls, nonListWarningLogged := false }
    | .ok _ =>
        let choice := match single_link_index with
          | some i => ScriptChoice.singleIndex i
          | none => ScriptChoice.allLinks
        match execResult choice with
        | .error _ =>
            { result := .ok [], pollsPerformed := polls, nonListWarningLogged := false }
        | .ok .nonList =>
            { result := .ok [], pollsPerformed := polls, nonListWarningLogged := true }
        | .ok (.list hrefs) =>
            { result := .ok hrefs, pollsPerformed := polls,
              nonListWarningLogged := false }

/-- Document element as needed for XPath text predicates: its direct text
node children and its string-value (the concatenated text content
including descendants). -/
structure DomElement where
  textChildren : List String
  stringValue : String
  deriving Repr, DecidableEq

/-- XPath 1.0 semantics of the predicate `[text()=s]` generated by
`find_by_visible_text` with `exact_match`: `text()` selects the direct
text node children, and a node-set compares equal to a string when some
member equals it. -/
def xpathTextEqualsHolds (search : String) (el : DomElement) : Bool :=
  el.textChildren.contains search

/-- XPath 1.0 semantics of the predicate `[contains(., s)]` generated by
`find_by_visible_text` without `exact_match`: the dot is the string-value
of the element, descendant text included. -/
def xpathContainsDotHolds (search : String) (el : DomElement) : Bool :=
  strContainsSub el.stringValue search

/-- Whether the locator generated by `find_by_visible_text` for the given
`exact_match` flag matches an element, by the XPath semantics above. -/
def visibleTextXPathMatches (exact_match : Bool) (search : String)
    (el : DomElement) : Bool :=
  if exact_match then xpathTextEqualsHolds search el
  else xpathContainsDotHolds search el

/-- Character-wise `str.replace(old, new)` for a single-character pattern,
as used by `_sanitize_filename` (all its patterns are single characters). -/
def replaceChar (s : String) (old : Char) (new : String) : String :=
  ⟨s.data.flatMap (fun c => if c = old then new.data else [c])⟩

/-- Empty replacement string used by the character-removal loop. -/
def emptyStr : String := ""

/-- Underscore replacement string used by the space/slash replacements. -/
def underscoreStr : String := "_"

/-- Characters the removal loop of `ScreenshotManager._sanitize_filename`
strips (the Python literal between angle bracket and asterisk). -/
def unsafeFilenameChars : List Char := String.data "<>:\"/\\|?*"

/-- Embedding of `ScreenshotManager._sanitize_filename`: replace space,
slash and backslash with underscores, then remove every character of
`unsafeFilenameChars`. -/
def _sanitize_filename (name : String) : String :=
  let s1 := replaceChar (replaceChar (replaceChar name ' ' underscoreStr)
    '/' underscoreStr) '\\' underscoreStr
  unsafeFilenameChars.foldl (fun acc c => replaceChar acc c emptyStr) s1

/-- Directory prefix of `DebugHelper` artifacts. -/
def debugArtifactsDir : String := "logs/debug_artifacts/"

/-- Directory prefix of `ScreenshotManager` screenshots. -/
def screenshotsDir : String := "logs/screenshots/"

/-- Filename built by `DebugHelper._capture_page_source`
(the context string is used as-is, unsanitized). -/
def pageSourceFilename (context timestamp : String) : String :=
  context ++ "_page_source_" ++ timestamp ++ ".html"

/-- Filename built by `DebugHelper._capture_console_logs`. -/
def consoleLogsFilename (context timestamp : String) : String :=
  context ++ "_console_logs_" ++ timestamp ++ ".log"

/-- Filename built by `DebugHelper._capture_system_info`. -/
def systemInfoFilename (context timestamp : String) : String :=
  context ++ "_system_info_" ++ timestamp ++ ".json"

/-- Filename built by `DebugHelper._save_error_info`. -/
def errorInfoFilename (context timestamp : String) : String :=
  context ++ "_error_info_" ++ timestamp ++ ".json"

/-- Python `"_".join(parts)`. -/
def joinUnderscore : List String → String
  | [] => emptyStr
  | [x] => x
  | x :: xs => x ++ underscoreStr ++ joinUnderscore xs

/-- Filename built by `ScreenshotManager.capture_on_failure`: the
sanitized context, the sanitized error type, and the timestamp, joined by
underscores (sanitized prefix/suffix parts are included only when
non-empty). -/
def captureOnFailureFilename (context error_type pfx sfx timestamp : String) : String :=
  let parts :=
    (if pfx ≠ emptyStr then [_sanitize_filename pfx] else []) ++
    [_sanitize_filename context, _sanitize_filename error_type, timestamp] ++
    (if sfx ≠ emptyStr then [_sanitize_filename sfx] else [])
  joinUnderscore parts ++ ".png"

/-- Environment of one debug-capture run: which of the underlying
I/O steps succeed. -/
structure CaptureEnv where
  /-- Native screenshot tool (scrot / screencapture / mss) succeeds. -/
  primaryShotOk : Bool
  /-- PIL ImageGrab fallback succeeds. -/
  fallbackShotOk : Bool
  /-- Writing the placeholder text file in place of the image succeeds. -/
  placeholderWriteOk : Bool
  /-- Reading `driver.page_source` and writing the html file succeed. -/
  pageSourceOk : Bool
  /-- The browser log returned by `driver.get_log` is non-empty. -/
  consoleHasLogs : Bool
  /-- Reading the browser log and writing the log file succeed. -/
  consoleCaptureOk : Bool
  /-- Collecting platform/psutil data and writing the json file succeed. -/
  systemInfoOk : Bool
  /-- Opening and writing the error-info json file succeeds. -/
  errorInfoWriteOk : Bool

/-- Embedding of `ScreenshotManager.capture_on_failure`: build the
filename, then cascade native tool, PIL fallback, placeholder text file.
Each stage catches the failures of the one before it, but a failing
placeholder write (`filepath.write_text`) is caught by nothing and the
`OSError` escapes. -/
def capture_on_failure (env : CaptureEnv)
    (context error_type pfx sfx timestamp : String) : Except PyError String :=
  let filepath := screenshotsDir ++
    captureOnFailureFilename context error_type pfx sfx timestamp
  if env.primaryShotOk then .ok filepath
  else if env.fallbackShotOk then .ok filepath
  else if env.placeholderWriteOk then .ok filepath
  else .error (.osError ("write_text failed: " ++ filepath))

/-- Embedding of `DebugHelper._capture_page_source`: its try/except
returns the saved path, or (after a logged warning) the empty string when
anything raises. -/
def _capture_page_source (env : CaptureEnv) (context timestamp : String) : String :=
  if env.pageSourceOk then debugArtifactsDir ++ pageSourceFilename context timestamp
  else emptyStr

/-- Embedding of `DebugHelper._capture_console_logs`: returns the saved
path when the log is non-empty and the capture works, and the empty
string otherwise (both for an empty log and for a caught exception). -/
def _capture_console_logs (env : CaptureEnv) (context timestamp : String) : String :=
  if env.consoleHasLogs && env.consoleCaptureOk then
    debugArtifactsDir ++ consoleLogsFilename context timestamp
  else emptyStr

/-- Embedding of `DebugHelper._capture_system_info`: its try/except
returns the saved path or the empty string. -/
def _capture_system_info (env : CaptureEnv) (context timestamp : String) : String :=
  if env.systemInfoOk then debugArtifactsDir ++ systemInfoFilename context timestamp
  else emptyStr

/-- Embedding of `DebugHelper._save_error_info`: unlike its three sibling
capture helpers this function has NO exception handler, so a failing file
write raises `OSError` to its caller. -/
def _save_error_info (env : CaptureEnv) (context error timestamp : String) :
    Except PyError String :=
  let _ := error
  if env.errorInfoWriteOk then
    .ok (debugArtifactsDir ++ errorInfoFilename context timestamp)
  else
    .error (.osError ("open failed: " ++ debugArtifactsDir ++
      errorInfoFilename context timestamp))

/-- Embedding of `DebugHelper.capture_all`: in source order, optionally
capture the screenshot (via `ScreenshotManager.capture_on_failure` with
`error_type="failure"`, NOT wrapped in any try/except), then page source,
console logs and system info (each isolated, degrading to an empty-string
path), then unconditionally `_save_error_info` (also not wrapped).  The
artifact dictionary is the returned association list. -/
def capture_all (env : CaptureEnv) (context error : String) (driverPresent : Bool)
    (save_screenshot save_page_source save_console_logs save_system_info : Bool)
    (timestamp : String) : Except PyError (List (String × String)) :=
  match (if save_screenshot then
           (capture_on_failure env context ("failure") emptyStr emptyStr
             timestamp).map (fun p => [(("screenshot" : String), p)])
         else .ok []) with
  | .error e => .error e
  | .ok shotEntries =>
    let a2 := shotEntries ++
      (if save_page_source && driverPresent then
         [(("page_source" : String), _capture_page_source env context timestamp)]
       else [])
    let a3 := a2 ++
      (if save_console_logs && driverPresent then
         [(("console_logs" : String), _capture_console_logs env context timestamp)]
       else [])
    let a4 := a3 ++
      (if save_system_info then
         [(("system_info" : String), _capture_system_info env context timestamp)]
       else [])
    match _save_error_info env context error timestamp with
    | .error e => .error e
    | .ok p => .ok (a4 ++ [(("error_info" : String), p)])

/-! Helper lemmas about the wait primitive. -/

theorem webDriverWaitUntil_timeout {α : Type} (poll : Nat → Option α)
    (maxPolls : Nat) (msg : String) (hp : ∀ t, poll t = none) :
    webDriverWaitUntil poll maxPolls msg = .error (.timeoutException msg) := by
  unfold webDriverWaitUntil
  have hnone : (List.range maxPolls).findSome? poll = none := by
    rw [List.findSome?_eq_none_iff]
    intro x _
    exact hp x
  rw [hnone]

theorem webDriverWaitUntilNot_timeout (holds : Nat → Bool) (maxPolls : Nat)
    (msg : String) (hp : ∀ t, holds t = true) :
    webDriverWaitUntilNot holds maxPolls msg = .error (.timeoutException msg) := by
  unfold webDriverWaitUntilNot
  have hfalse : (List.range maxPolls).any (fun t => !(holds t)) = false := by
    rw [List.any_eq_false]
    intro x _
    simp [hp x]
  simp [hfalse]

/-- C3: for each of the six boolean-style wait operations, when the awaited
condition never becomes true the call returns `Except.ok false` — the
timeout is turned into the value `false` and no exception reaches the
caller.  For the two negative waits the awaited condition is absence or
invisibility, so the hypotheses say the element stays present or visible
at every poll. -/
theorem boolean_wait_timeout_returns_false
    (h : SeleniumHelper) (timeout : Option Nat) (xpath text substring : String)
    (neverPresent neverVisible alwaysPresent alwaysVisible : Nat → Bool)
    (elementTextAt : Nat → Option String) (urlAt : Nat → String)
    (hp : ∀ t, neverPresent t = false)
    (hv : ∀ t, neverVisible t = false)
    (ht : ∀ t s, elementTextAt t = some s → strContainsSub s text = false)
    (hu : ∀ t, strContainsSub (urlAt t) substring = false)
    (hap : ∀ t, alwaysPresent t = true)
    (hav : ∀ t, alwaysVisible t = true) :
    wait_for_element_present h neverPresent xpath timeout = .ok false ∧
    wait_for_element_visible h neverVisible xpath timeout = .ok false ∧
    wait_for_text_present_in_element h elementTextAt xpath text timeout = .ok false ∧
    wait_for_url_contains h urlAt substring timeout = .ok false ∧
    wait_for_element_not_present h alwaysPresent xpath timeout = .ok false ∧
    wait_for_element_not_visible h alwaysVisible xpath timeout = .ok false := by
  refine ⟨?_, ?_, ?_, ?_, ?_, ?_⟩
  · simp only [wait_for_element_present]
    rw [webDriverWaitUntil_timeout _ _ _ (fun t => by simp [hp t])]
  · simp only [wait_for_element_visible]
    rw [webDriverWaitUntil_timeout _ _ _ (fun t => by simp [hv t])]
  · simp only [wait_for_text_present_in_element]
    rw [webDriverWaitUntil_timeout _ _ _ (fun t => ?_)]
    cases hE : elementTextAt t with
    | none => rfl
    | some s => simp [ht t s hE]
  · simp only [wait_for_url_contains]
    rw [webDriverWaitUntil_timeout _ _ _ (fun t => by simp [hu t])]
  · simp only [wait_for_element_not_present]
    rw [webDriverWaitUntilNot_timeout _ _ _ hap]
  · simp only [wait_for_element_not_visible]
    rw [webDriverWaitUntilNot_timeout _ _ _ hav]

/-- Witness for C3 at concrete inputs: an element that is never present or
visible, an element whose text never appears, a URL that never contains
the substring, and an element that never disappears. -/
theorem boolean_wait_timeout_returns_false_witness :
    wait_for_element_present ⟨2⟩ (fun _ => false) ("//div") (some 2) = .ok false ∧
    wait_for_element_visible ⟨2⟩ (fun _ => false) ("//div") (some 2) = .ok false ∧
    wait_for_text_present_in_element ⟨2⟩ (fun _ => some "loading") ("//div")
      ("done") (some 2) = .ok false ∧
    wait_for_url_contains ⟨2⟩ (fun _ => "https://example.com/home") ("dashboard")
      (some 2) = .ok false ∧
    wait_for_element_not_present ⟨2⟩ (fun _ => true) ("//div") (some 2) = .ok false ∧
    wait_for_element_not_visible ⟨2⟩ (fun _ => true) ("//div") (some 2) = .ok false :=
  boolean_wait_timeout_returns_false ⟨2⟩ (some 2) ("//div") ("done") ("dashboard")
    (fun _ => false) (fun _ => false) (fun _ => true) (fun _ => true)
    (fun _ => some "loading") (fun _ => "https://example.com/home")
    (fun _ => rfl) (fun _ => rfl)
    (fun _ s hs => by cases hs; decide)
    (fun _ => by
      show strContainsSub ("https://example.com/home") ("dashboard") = false
      decide)
    (fun _ => rfl) (fun _ => rfl)

/-- C4: the condition resolver accepts exactly the three names clickable,
visible and present; any other name makes `_get_expected_condition_func`
raise `ValueError`, and every operation that accepts a condition-name
argument — the four locate-by-purpose variants, `click_element`,
`type_text`, `scroll_to_element` (given valid scroll arguments, validated
even earlier) and `insert_text_from_file` (given a readable file) —
propagates that `ValueError`.  The poll-counting operations report zero
polls, and every conjunct holds for an arbitrary condition environment
`condPoll`, so the error precedes any document interaction. -/
theorem condition_resolver_rejects_invalid
    (condition : String) (h : SeleniumHelper) (driver : Driver)
    (condPoll : ECKind → Nat → Option WebElement) (actionOk : WebElement → Bool)
    (locator : Locator) (wait_time : Option Nat)
    (test_id aria_label searchText tagName : String) (exact_match : Bool)
    (attribute_name attribute_value_part typedText : String)
    (clear_before : Bool) (fs : String → FileReadResult)
    (file_path fileText : String)
    (hc : condition ≠ "clickable") (hv : condition ≠ "visible")
    (hp : condition ≠ "present")
    (hfs : fs file_path = FileReadResult.content fileText) :
    _get_expected_condition_func condition =
      .error (.valueError ("Unsupported condition: " ++ condition ++
        ". Use one of: [clickable, visible, present]")) ∧
    find_by_data_test_id h driver condPoll test_id wait_time condition =
      .error (.valueError ("Unsupported condition: " ++ condition ++
        ". Use one of: [clickable, visible, present]")) ∧
    find_by_aria_label h driver condPoll aria_label wait_time condition =
      .error (.valueError ("Unsupported condition: " ++ condition ++
        ". Use one of: [clickable, visible, present]")) ∧
    find_by_visible_text h driver condPoll searchText tagName wait_time condition
      exact_match =
      .error (.valueError ("Unsupported condition: " ++ condition ++
        ". Use one of: [clickable, visible, present]")) ∧
    find_by_partial_attribute h driver condPoll attribute_name
      attribute_value_part tagName wait_time condition =
      .error (.valueError ("Unsupported condition: " ++ condition ++
        ". Use one of: [clickable, visible, present]")) ∧
    click_element h driver condPoll actionOk locator wait_time condition =
      (.error (.valueError ("Unsupported condition: " ++ condition ++
        ". Use one of: [clickable, visible, present]")), 0) ∧
    type_text h driver condPoll actionOk locator typedText clear_before
      wait_time condition =
      (.error (.valueError ("Unsupported condition: " ++ condition ++
        ". Use one of: [clickable, visible, present]")), 0) ∧
    scroll_to_element h driver condPoll actionOk locator wait_time condition
      ("auto") ("center") =
      (.error (.valueError ("Unsupported condition: " ++ condition ++
        ". Use one of: [clickable, visible, present]")), 0) ∧
    insert_text_from_file h driver fs condPoll actionOk file_path locator
      clear_before wait_time condition =
      (.error (.valueError ("Unsupported condition: " ++ condition ++
        ". Use one of: [clickable, visible, present]")), 0) ∧
    _get_expected_condition_func "clickable" = .ok .clickable ∧
    _get_expected_condition_func "visible" = .ok .visible ∧
    _get_expected_condition_func "present" = .ok .present := by
  have hres : _get_expected_condition_func condition =
      .error (.valueError ("Unsupported condition: " ++ condition ++
        ". Use one of: [clickable, visible, present]")) := by
    unfold _get_expected_condition_func
    rw [if_neg hc, if_neg hv, if_neg hp]
  refine ⟨hres, ?_, ?_, ?_, ?_, ?_, ?_, ?_, ?_, by decide, by decide, by decide⟩
  · simp only [find_by_data_test_id, locateByPurpose, hres]
  · simp only [find_by_aria_label, locateByPurpose, hres]
  · simp only [find_by_visible_text, locateByPurpose, hres]
  · simp only [find_by_partial_attribute, locateByPurpose, hres]
  · simp only [click_element, hres]
  · simp only [type_text, hres]
  · rw [scroll_to_element, if_neg (by decide), if_neg (by decide), hres]
  · simp only [insert_text_from_file, hfs, hres]

/-- Witness for C4 at the invalid condition name hover, covering all
eight condition-accepting operations. -/
theorem condition_resolver_rejects_invalid_witness :
    _get_expected_condition_func "hover" =
      .error (.valueError ("Unsupported condition: hover" ++
        ". Use one of: [clickable, visible, present]")) ∧
    find_by_data_test_id ⟨5⟩ ⟨"https://app"⟩ (fun _ _ => none) ("tid") none
      ("hover") =
      .error (.valueError ("Unsupported condition: hover" ++
        ". Use one of: [clickable, visible, present]")) ∧
    find_by_aria_label ⟨5⟩ ⟨"https://app"⟩ (fun _ _ => none) ("Close dialog")
      none ("hover") =
      .error (.valueError ("Unsupported condition: hover" ++
        ". Use one of: [clickable, visible, present]")) ∧
    find_by_visible_text ⟨5⟩ ⟨"https://app"⟩ (fun _ _ => none) ("Save") ("*")
      none ("hover") false =
      .error (.valueError ("Unsupported condition: hover" ++
        ". Use one of: [clickable, visible, present]")) ∧
    find_by_partial_attribute ⟨5⟩ ⟨"https://app"⟩ (fun _ _ => none) ("class")
      ("btn") ("*") none ("hover") =
      .error (.valueError ("Unsupported condition: hover" ++
        ". Use one of: [clickable, visible, present]")) ∧
    click_element ⟨5⟩ ⟨"https://app"⟩ (fun _ _ => none) (fun _ => true)
      ⟨.cssSelector, "#btn"⟩ none ("hover") =
      (.error (.valueError ("Unsupported condition: hover" ++
        ". Use one of: [clickable, visible, present]")), 0) ∧
    type_text ⟨5⟩ ⟨"https://app"⟩ (fun _ _ => none) (fun _ => true)
      ⟨.cssSelector, "#btn"⟩ ("hello") true none ("hover") =
      (.error (.valueError ("Unsupported condition: hover" ++
        ". Use one of: [clickable, visible, present]")), 0) ∧
    scroll_to_element ⟨5⟩ ⟨"https://app"⟩ (fun _ _ => none) (fun _ => true)
      ⟨.cssSelector, "#btn"⟩ none ("hover") ("auto") ("center") =
      (.error (.valueError ("Unsupported condition: hover" ++
        ". Use one of: [clickable, visible, present]")), 0) ∧
    insert_text_from_file ⟨5⟩ ⟨"https://app"⟩
      (fun _ => FileReadResult.content "data") (fun _ _ => none) (fun _ => true)
      ("/tmp/data.txt") ⟨.cssSelector, "#btn"⟩ true none ("hover") =
      (.error (.valueError ("Unsupported condition: hover" ++
        ". Use one of: [clickable, visible, present]")), 0) ∧
    _get_expected_condition_func "clickable" = .ok .clickable ∧
    _get_expected_condition_func "visible" = .ok .visible ∧
    _get_expected_condition_func "present" = .ok .present :=
  condition_resolver_rejects_invalid ("hover") ⟨5⟩ ⟨"https://app"⟩
    (fun _ _ => none) (fun _ => true) ⟨.cssSelector, "#btn"⟩ none
    ("tid") ("Close dialog") ("Save") ("*") false ("class") ("btn") ("hello")
    true (fun _ => FileReadResult.content "data") ("/tmp/data.txt") ("data")
    (by decide) (by decide) (by decide) rfl

/-- C7: the locator generated by `find_by_visible_text` with `exact_match`
matches exactly the elements having a direct text node equal to the search
string, and without `exact_match` exactly the elements whose string-value
(descendant text included) contains the search string; in particular an
element with text Submit is not matched by the search string Sub when
`exact_match` is true, and is matched when it is false. -/
theorem find_by_visible_text_exact_vs_contains :
    visibleTextXPath "*" "Sub" true =
      "//*[text()=" ++ sglQuote ++ "Sub" ++ sglQuote ++ "]" ∧
    visibleTextXPath "*" "Sub" false =
      "//*[contains(., " ++ sglQuote ++ "Sub" ++ sglQuote ++ ")]" ∧
    (∀ (s : String) (el : DomElement),
      visibleTextXPathMatches true s el = true ↔ s ∈ el.textChildren) ∧
    (∀ (s : String) (el : DomElement),
      visibleTextXPathMatches false s el = true ↔ s.data <:+: el.stringValue.data) ∧
    visibleTextXPathMatches true ("Sub") ⟨["Submit"], "Submit"⟩ = false ∧
    visibleTextXPathMatches false ("Sub") ⟨["Submit"], "Submit"⟩ = true ∧
    visibleTextXPathMatches true ("Submit") ⟨["Submit"], "Submit"⟩ = true := by
  refine ⟨by decide, by decide, ?_, ?_, by decide, by decide, by decide⟩
  · intro s el
    simp only [visibleTextXPathMatches, xpathTextEqualsHolds, if_true]
    exact List.elem_iff
  · intro s el
    simp [visibleTextXPathMatches, xpathContainsDotHolds, strContainsSub]

/-- C8: `insert_text_from_file` on a missing file raises
`FileNotFoundError` with zero polls performed: the file is read before the
wait time is resolved, before the condition name is resolved and before
any element wait. -/
theorem insert_text_from_file_missing_raises_first
    (h : SeleniumHelper) (driver : Driver) (fs : String → FileReadResult)
    (condPoll : ECKind → Nat → Option WebElement) (sendKeysOk : WebElement → Bool)
    (file_path : String) (locator : Locator) (clear_before_insert : Bool)
    (wait_time : Option Nat) (condition : String)
    (hmiss : fs file_path = FileReadResult.missing) :
    insert_text_from_file h driver fs condPoll sendKeysOk file_path locator
      clear_before_insert wait_time condition =
      (.error (.fileNotFound file_path), 0) := by
  unfold insert_text_from_file
  rw [hmiss]

/-- Witness for C8 at a concrete nonexistent path. -/
theorem insert_text_from_file_missing_raises_first_witness :
    insert_text_from_file ⟨5⟩ ⟨"https://app"⟩ (fun _ => FileReadResult.missing)
      (fun _ _ => some 1) (fun _ => true) ("/tmp/no_such_file.txt")
      ⟨.cssSelector, "#editor"⟩ true none ("clickable") =
      (.error (.fileNotFound "/tmp/no_such_file.txt"), 0) :=
  insert_text_from_file_missing_raises_first ⟨5⟩ ⟨"https://app"⟩
    (fun _ => FileReadResult.missing) (fun _ _ => some 1) (fun _ => true)
    ("/tmp/no_such_file.txt") ⟨.cssSelector, "#editor"⟩ true none ("clickable") rfl

/-- C10: `extract_links_with_js` with a negative `single_link_index`
raises `ValueError` immediately: zero polls are performed and no script
runs. -/
theorem extract_links_negative_index_rejected
    (h : SeleniumHelper) (driver : Driver) (containerPresentAt : Nat → Bool)
    (execResult : ScriptChoice → Except Unit JSValue)
    (container_locator : Locator) (link_selector : String)
    (wait_time : Option Nat) (i : Int) (hneg : i < 0) :
    extract_links_with_js h driver containerPresentAt execResult container_locator
      link_selector wait_time (some i) =
      { result := .error (.valueError
          "single_link_index must be a non-negative integer or None."),
        pollsPerformed := 0, nonListWarningLogged := false } := by
  unfold extract_links_with_js
  simp [hneg]

/-- Witness for C10 at the index minus one. -/
theorem extract_links_negative_index_rejected_witness :
    extract_links_with_js ⟨5⟩ ⟨"https://app"⟩ (fun _ => true)
      (runExtractionScript [⟨["https://a"]⟩]) ⟨.cssSelector, ".card"⟩ ("a[href]")
      none (some (-1)) =
      { result := .error (.valueError
          "single_link_index must be a non-negative integer or None."),
        pollsPerformed := 0, nonListWarningLogged := false } :=
  extract_links_negative_index_rejected ⟨5⟩ ⟨"https://app"⟩ (fun _ => true)
    (runExtractionScript [⟨["https://a"]⟩]) ⟨.cssSelector, ".card"⟩ ("a[href]")
    none (-1) (by decide)

/-- C1: evaluation of the element-returning wait operations on a condition
that never becomes true within the effective timeout.  The four
locate-by-purpose variants do not raise `ElementNotFoundError`: their
timeout handler first calls `self._get_current_url_or_default()`, and that
call raises `TypeError` (the helper is a `@staticmethod` whose first
parameter is `self`), which escapes instead of the intended error.
`wait_for_element_clickable` raises `TimeoutException`, as its docstring
and the unit test `test_wait_for_element_clickable_timeout` specify — not
`ElementNotFoundError` either. -/
theorem locate_timeout_raises_typeerror_not_elementnotfound :
    find_by_data_test_id ⟨2⟩ ⟨"https://app"⟩ (fun _ _ => none) ("login-button")
      none ("clickable") = .error (.typeError urlHelperTypeErrorMsg) ∧
    find_by_aria_label ⟨2⟩ ⟨"https://app"⟩ (fun _ _ => none) ("Close dialog")
      none ("clickable") = .error (.typeError urlHelperTypeErrorMsg) ∧
    find_by_visible_text ⟨2⟩ ⟨"https://app"⟩ (fun _ _ => none) ("Save") ("*")
      none ("clickable") false = .error (.typeError urlHelperTypeErrorMsg) ∧
    find_by_partial_attribute ⟨2⟩ ⟨"https://app"⟩ (fun _ _ => none) ("class")
      ("btn") ("*") none ("clickable") = .error (.typeError urlHelperTypeErrorMsg) ∧
    wait_for_element_clickable ⟨2⟩ (fun _ => none) ("//button") none =
      .error (.timeoutException
        ("Timed out waiting for element to be clickable: //button")) := by
  refine ⟨?_, ?_, ?_, ?_, ?_⟩ <;> decide

/-- C2: evaluation of the four locate-by-purpose operations on a condition
that is satisfied at the very first poll.  The element wait itself
succeeds (first conjunct), but the success path then calls
`self._get_current_url_or_default()` for its info log, and that call
raises `TypeError` (misdeclared `@staticmethod` taking `self`), so the
located element is never returned to the caller. -/
theorem locate_success_raises_typeerror_instead_of_element :
    webDriverWaitUntil (fun _ : Nat => some (7 : WebElement)) 5
      ("[data-testid=q]") = .ok 7 ∧
    callGetCurrentUrlViaInstance ⟨"https://app"⟩ =
      .error (.typeError urlHelperTypeErrorMsg) ∧
    find_by_data_test_id ⟨5⟩ ⟨"https://app"⟩ (fun _ _ => some 7) ("submit")
      none ("clickable") = .error (.typeError urlHelperTypeErrorMsg) ∧
    find_by_aria_label ⟨5⟩ ⟨"https://app"⟩ (fun _ _ => some 7) ("Close dialog")
      none ("clickable") = .error (.typeError urlHelperTypeErrorMsg) ∧
    find_by_visible_text ⟨5⟩ ⟨"https://app"⟩ (fun _ _ => some 7) ("Save") ("*")
      none ("clickable") false = .error (.typeError urlHelperTypeErrorMsg) ∧
    find_by_partial_attribute ⟨5⟩ ⟨"https://app"⟩ (fun _ _ => some 7) ("class")
      ("btn") ("*") none ("clickable") = .error (.typeError urlHelperTypeErrorMsg) := by
  refine ⟨?_, ?_, ?_, ?_, ?_, ?_⟩ <;> decide


/-- C6: semantics of bulk link extraction.  For the single-index script:
a container with at most `i` matching links contributes nothing, and a
container with a truthy href at position `i` contributes exactly that
href.  For the no-index script: with truthy hrefs the result is the
concatenation of all hrefs of all containers in document order.  The last
three conjuncts run `extract_links_with_js` end to end: index 1 skips the
one-link middle container, no index returns the full union, and a
non-list script result degrades to the empty list with the warning logged
instead of raising. -/
theorem extract_links_with_js_spec :
    (∀ (pre post : List JSContainer) (c : JSContainer) (i : Nat),
      c.links.length ≤ i →
      jsExtractAt (pre ++ c :: post) i = jsExtractAt pre i ++ jsExtractAt post i) ∧
    (∀ (pre post : List JSContainer) (c : JSContainer) (i : Nat) (href : String),
      c.links.get? i = some href → href ≠ "" →
      jsExtractAt (pre ++ c :: post) i =
        jsExtractAt pre i ++ href :: jsExtractAt post i) ∧
    (∀ (containers : List JSContainer),
      (∀ c ∈ containers, ∀ href ∈ c.links, href ≠ "") →
      jsExtractAll containers = containers.flatMap (fun c => c.links)) ∧
    extract_links_with_js ⟨3⟩ ⟨"https://app"⟩ (fun _ => true)
      (runExtractionScript [⟨["https://a", "https://b"]⟩, ⟨["https://c"]⟩,
        ⟨["https://d", "https://e", "https://f"]⟩])
      ⟨.cssSelector, ".card"⟩ ("a[href]") none (some 1) =
      { result := .ok ["https://b", "https://e"], pollsPerformed := 1,
        nonListWarningLogged := false } ∧
    extract_links_with_js ⟨3⟩ ⟨"https://app"⟩ (fun _ => true)
      (runExtractionScript [⟨["https://a", "https://b"]⟩, ⟨["https://c"]⟩,
        ⟨["https://d", "https://e", "https://f"]⟩])
      ⟨.cssSelector, ".card"⟩ ("a[href]") none none =
      { result := .ok ["https://a", "https://b", "https://c", "https://d",
          "https://e", "https://f"], pollsPerformed := 1,
        nonListWarningLogged := false } ∧
    extract_links_with_js ⟨3⟩ ⟨"https://app"⟩ (fun _ => true)
      (fun _ => .ok JSValue.nonList) ⟨.cssSelector, ".card"⟩ ("a[href]")
      none none =
      { result := .ok [], pollsPerformed := 1, nonListWarningLogged := true } := by
  refine ⟨?_, ?_, ?_, by decide, by decide, by decide⟩
  · intro pre post c i hle
    have hnone : c.links[i]? = none := List.getElem?_eq_none hle
    simp [jsExtractAt, List.flatMap_append, List.flatMap_cons, hnone]
  · intro pre post c i href hget hne
    have hget2 : c.links[i]? = some href := by
      rw [← List.get?_eq_getElem?]
      exact hget
    simp [jsExtractAt, List.flatMap_append, List.flatMap_cons, hget2, hne]
  · intro containers hne
    induction containers with
    | nil => rfl
    | cons c cs ih =>
        have hcs := ih (fun d hd a ha => hne d (by simp [hd]) a ha)
        have hc : c.links.filter (fun href => href ≠ "") = c.links := by
          rw [List.filter_eq_self]
          intro a ha
          simpa using hne c (by simp) a ha
        simp only [jsExtractAll, List.flatMap_cons] at hcs ⊢
        rw [hc, hcs]

/-- Witness for C6: the quantified conjuncts applied at concrete
containers — an excluded container between two others, a contributing
container, and an all-truthy union. -/
theorem extract_links_with_js_spec_witness :
    jsExtractAt ([JSContainer.mk ["https://x"]] ++
      JSContainer.mk ["https://only"] :: [JSContainer.mk ["https://y", "https://z"]]) 1 =
      jsExtractAt [JSContainer.mk ["https://x"]] 1 ++
        jsExtractAt [JSContainer.mk ["https://y", "https://z"]] 1 ∧
    jsExtractAt ([] ++ JSContainer.mk ["https://p", "https://q"] :: []) 1 =
      jsExtractAt [] 1 ++ "https://q" :: jsExtractAt [] 1 ∧
    jsExtractAll [JSContainer.mk ["https://a"], JSContainer.mk ["https://b", "https://c"]] =
      [JSContainer.mk ["https://a"], JSContainer.mk ["https://b", "https://c"]].flatMap
        (fun c => c.links) :=
  ⟨extract_links_with_js_spec.1 [JSContainer.mk ["https://x"]]
      [JSContainer.mk ["https://y", "https://z"]] (JSContainer.mk ["https://only"]) 1
      (by decide),
   extract_links_with_js_spec.2.1 [] [] (JSContainer.mk ["https://p", "https://q"]) 1
      ("https://q") (by decide) (by decide),
   extract_links_with_js_spec.2.2.1
      [JSContainer.mk ["https://a"], JSContainer.mk ["https://b", "https://c"]]
      (by decide)⟩

/-! Helper lemmas about character replacement, for the sanitizer. -/

theorem mem_replaceChar (s : String) (old : Char) (new : String) (a : Char) :
    a ∈ (replaceChar s old new).data ↔
      ((old ∈ s.data ∧ a ∈ new.data) ∨ (a ∈ s.data ∧ a ≠ old)) := by
  have hdata : (replaceChar s old new).data =
      s.data.flatMap (fun c => if c = old then new.data else [c]) := rfl
  rw [hdata, List.mem_flatMap]
  constructor
  · rintro ⟨c, hc, hac⟩
    by_cases h : c = old
    · rw [if_pos h] at hac
      exact Or.inl ⟨h ▸ hc, hac⟩
    · rw [if_neg h] at hac
      simp only [List.mem_singleton] at hac
      subst hac
      exact Or.inr ⟨hc, h⟩
  · rintro (⟨hold, hanew⟩ | ⟨has, hne⟩)
    · exact ⟨old, hold, by simp [hanew]⟩
    · exact ⟨a, has, by simp [hne]⟩

theorem mem_removeChars (l : List Char) (s : String) (a : Char) :
    a ∈ (l.foldl (fun acc c => replaceChar acc c emptyStr) s).data ↔
      (a ∈ s.data ∧ a ∉ l) := by
  induction l generalizing s with
  | nil => simp
  | cons c cs ih =>
      rw [List.foldl_cons, ih, mem_replaceChar]
      simp only [emptyStr]
      constructor
      · rintro ⟨(⟨_, h⟩ | ⟨has, hne⟩), hnotin⟩
        · cases h
        · exact ⟨has, by simp [hne, hnotin]⟩
      · rintro ⟨has, hnotin⟩
        simp only [List.mem_cons, not_or] at hnotin
        exact ⟨Or.inr ⟨has, hnotin.1⟩, hnotin.2⟩

/-- C5: `DebugHelper.capture_all` with an environment where the error-info
file write fails raises `OSError` to its caller — `_save_error_info` has
no exception handler, unlike the other four artifact captures — so the
call is NOT exception-free under individual capture failure.  Whenever the
call does return a dictionary, that dictionary contains the key
error_info (second conjunct). -/
theorem capture_all_uncaught_oserror_and_error_info_key :
    capture_all ⟨true, true, true, true, true, true, true, false⟩ ("ctx") ("boom")
      true true true true true ("T") =
      .error (.osError ("open failed: " ++ debugArtifactsDir ++
        errorInfoFilename ("ctx") ("T"))) ∧
    (∀ (env : CaptureEnv) (context error : String)
       (driverPresent s1 s2 s3 s4 : Bool) (timestamp : String)
       (artifacts : List (String × String)),
      capture_all env context error driverPresent s1 s2 s3 s4 timestamp =
        .ok artifacts →
      (artifacts.map Prod.fst).contains ("error_info") = true) := by
  refine ⟨by decide, ?_⟩
  intro env context error driverPresent s1 s2 s3 s4 timestamp artifacts hok
  simp only [capture_all] at hok
  split at hok
  · exact absurd hok (by simp)
  · split at hok
    · exact absurd hok (by simp)
    · simp only [Except.ok.injEq] at hok
      subst hok
      simp

/-- Witness for C5: an environment where every capture succeeds yields the
five-artifact dictionary, and the second conjunct of the theorem applied
to it shows the error_info key is present. -/
theorem capture_all_uncaught_oserror_and_error_info_key_witness :
    capture_all ⟨true, true, true, true, true, true, true, true⟩ ("c x") ("boom")
      true true true true true ("T") =
      .ok [("screenshot", "logs/screenshots/c_x_failure_T.png"),
           ("page_source", "logs/debug_artifacts/c x_page_source_T.html"),
           ("console_logs", "logs/debug_artifacts/c x_console_logs_T.log"),
           ("system_info", "logs/debug_artifacts/c x_system_info_T.json"),
           ("error_info", "logs/debug_artifacts/c x_error_info_T.json")] ∧
    (([("screenshot", "logs/screenshots/c_x_failure_T.png"),
       ("page_source", "logs/debug_artifacts/c x_page_source_T.html"),
       ("console_logs", "logs/debug_artifacts/c x_console_logs_T.log"),
       ("system_info", "logs/debug_artifacts/c x_system_info_T.json"),
       ("error_info", "logs/debug_artifacts/c x_error_info_T.json")]
      : List (String × String)).map Prod.fst).contains ("error_info") = true :=
  ⟨by decide,
   capture_all_uncaught_oserror_and_error_info_key.2
     ⟨true, true, true, true, true, true, true, true⟩ ("c x") ("boom")
     true true true true true ("T") _ (by decide)⟩

/-- C9 counterexample: with the context a/b (which contains the unsafe
slash) and timestamp T, the error-info artifact filename keeps the raw
slash — the context is NOT sanitized for the debug-helper artifacts — and
the screenshot artifact filename puts the error type (fixed to failure by
`capture_all`), not the artifact kind screenshot, in the middle slot. -/
theorem debug_artifact_filenames_counterexample :
    errorInfoFilename ("a/b") ("T") = "a/b_error_info_T.json" ∧
    (errorInfoFilename ("a/b") ("T")).data.contains '/' = true ∧
    _sanitize_filename ("a/b") = "a_b" ∧
    errorInfoFilename ("a/b") ("T") ≠
      _sanitize_filename ("a/b") ++ "_error_info_" ++ "T" ++ ".json" ∧
    captureOnFailureFilename ("a/b") ("failure") emptyStr emptyStr ("T") =
      "a_b_failure_T.png" := by
  refine ⟨by decide, by decide, by decide, by decide, by decide⟩

/-- C9 amended: the artifact file names actually produced.  The sanitizer
really strips every unsafe character and every space (first two
conjuncts).  The screenshot artifact is named
sanitized-context_error-type_timestamp.png, where `capture_all` fixes the
error type to failure (third conjunct).  The page-source, console-log,
system-info and error-info artifacts are named
context_kind_timestamp.extension with the RAW, unsanitized context
(fourth conjunct, an end-to-end run of `capture_all`). -/
theorem debug_artifact_filenames_amended :
    (∀ (name : String) (a : Char), a ∈ unsafeFilenameChars →
      a ∉ (_sanitize_filename name).data) ∧
    (∀ (name : String), ' ' ∉ (_sanitize_filename name).data) ∧
    (∀ (context ts : String),
      captureOnFailureFilename context ("failure") emptyStr emptyStr ts =
        _sanitize_filename context ++ "_failure_" ++ ts ++ ".png") ∧
    (∀ (context error ts : String),
      capture_all ⟨true, true, true, true, true, true, true, true⟩ context error
        true true true true true ts =
      .ok [("screenshot", screenshotsDir ++
              captureOnFailureFilename context ("failure") emptyStr emptyStr ts),
           ("page_source", debugArtifactsDir ++ pageSourceFilename context ts),
           ("console_logs", debugArtifactsDir ++ consoleLogsFilename context ts),
           ("system_info", debugArtifactsDir ++ systemInfoFilename context ts),
           ("error_info", debugArtifactsDir ++ errorInfoFilename context ts)]) := by
  refine ⟨?_, ?_, ?_, ?_⟩
  · intro name a hmem hcontra
    simp only [_sanitize_filename] at hcontra
    rw [mem_removeChars] at hcontra
    exact hcontra.2 hmem
  · intro name hcontra
    simp only [_sanitize_filename] at hcontra
    rw [mem_removeChars] at hcontra
    obtain ⟨hin, _⟩ := hcontra
    have hu : (' ') ∉ underscoreStr.data := by decide
    rw [mem_replaceChar] at hin
    rcases hin with ⟨_, h⟩ | ⟨hin, _⟩
    · exact hu h
    · rw [mem_replaceChar] at hin
      rcases hin with ⟨_, h⟩ | ⟨hin, _⟩
      · exact hu h
      · rw [mem_replaceChar] at hin
        rcases hin with ⟨_, h⟩ | ⟨_, hne⟩
        · exact hu h
        · exact hne rfl
  · intro context ts
    have h0 : captureOnFailureFilename context ("failure") emptyStr emptyStr ts =
        ((_sanitize_filename context ++ underscoreStr) ++
          (("failure" ++ underscoreStr) ++ ts)) ++ ".png" := rfl
    refine h0.trans ?_
    generalize _sanitize_filename context = A
    simp only [underscoreStr, String.append_assoc]
    congr 1
  · intro context error ts
    rfl

/-- Witness for C9: the sanitizer really removes the slash of the context
a/b, and the screenshot-filename equation instantiated at that context. -/
theorem debug_artifact_filenames_amended_witness :
    ('/') ∉ (_sanitize_filename ("a/b")).data ∧
    captureOnFailureFilename ("a/b") ("failure") emptyStr emptyStr ("T") =
      _sanitize_filename ("a/b") ++ "_failure_" ++ "T" ++ ".png" :=
  ⟨debug_artifact_filenames_amended.1 ("a/b") '/' (by decide),
   debug_artifact_filenames_amended.2.2.1 ("a/b") ("T")⟩
